import Mathlib

/-!
Shallow embedding of the worker engine of `src/main.py` (Dreamina image
generation tool): API error classification (`call_api`), the per-prompt
session-rotation loop (`process_prompt`), the worker run loop (`run`),
`start`/`stop`, and `sanitize_filename` with the image-filename derivation.

External collaborators (the HTTP transport, `hashlib.md5`, the downloader,
Python `str.lower`) enter as explicit function parameters or oracles; the
logic itself is translated from the source.
-/

/-- Error codes that trigger a session switch (`SESSION_ERROR_CODES` in the
source). -/
def SESSION_ERROR_CODES : List Int := [-2009, -2001, -2002, -2003, -1001]

/-- The empty string (used for the Python falsiness test on `item.get('url')`). -/
def EMPTY_STR : String := ""

/-- One entry of the response `data` array; `url` is `none` when the JSON
object has no `url` key (the source reads it with `item.get('url')`). -/
structure Item where
  url : Option String
deriving DecidableEq

/-- Parsed JSON body of an API response: optional numeric `code` field and
optional `data` array, the only fields `call_api` inspects. -/
structure ApiBody where
  code : Option Int
  data : Option (List Item)
deriving DecidableEq

/-- Outcome of the HTTP layer for one attempt, distinguishing the `except`
clauses of `call_api`: a parsed JSON body, `requests.exceptions.HTTPError`,
`requests.exceptions.JSONDecodeError`, or any other exception (transport
errors, timeouts). -/
inductive ApiResponse where
  | parsed (body : ApiBody)
  | httpError
  | jsonDecodeError
  | otherError
deriving DecidableEq

/-- Python truthiness of `"data" in result and result["data"]`: the `data` key
is present and holds a non-empty list. -/
def dataTruthy (result : ApiBody) : Bool :=
  match result.data with
  | some l => !l.isEmpty
  | none => false

namespace WorkerThread

/-- Tail of `call_api` after the error-code branch: the valid-data check and
the invalid-response fallthrough (`return None, True`). -/
def callApiDataCheck (result : ApiBody) : Option ApiBody × Bool :=
  if dataTruthy result then (some result, false) else (none, true)

/-- `WorkerThread.call_api`, returning the `(result, should_switch)` pair
exactly as the source does.  The HTTP call itself is external, so the function
consumes the observed `ApiResponse`. -/
def call_api (resp : ApiResponse) : Option ApiBody × Bool :=
  match resp with
  | .parsed result =>
    match result.code with
    | some error_code =>
      if error_code ≠ 0 then
        (none, decide (error_code ∈ SESSION_ERROR_CODES) || decide (error_code < 0))
      else
        callApiDataCheck result
    | none => callApiDataCheck result
  | .httpError => (none, true)
  | .jsonDecodeError => (none, true)
  | .otherError => (none, true)

end WorkerThread

/-- The three-way classification of one attempt, read off from the
`(result, should_switch)` pair exactly as `process_prompt` consumes it:
a non-`None` result (which always carries truthy `data`) is a success,
otherwise `should_switch` separates switch from abort. -/
inductive Classification where
  | Success
  | SwitchSession
  | Abort
deriving DecidableEq

/-- Classification of an attempt as `process_prompt` reacts to it. -/
def classify (resp : ApiResponse) : Classification :=
  match WorkerThread.call_api resp with
  | (some _, _) => .Success
  | (none, true) => .SwitchSession
  | (none, false) => .Abort

/-- The numeric `code` of a parsed body, if any. -/
def codeOf : ApiResponse → Option Int
  | .parsed r => r.code
  | _ => none

/-- Spec-side condition, written from the claim's words: `Success` iff the
HTTP call succeeded, the body parses, the code is absent or zero, and a
non-empty `data` collection is present. -/
def specSuccessCond (resp : ApiResponse) : Bool :=
  match resp with
  | .parsed r =>
    (match r.code with
     | some c => decide (c = 0)
     | none => true) && dataTruthy r
  | _ => false

/-- Spec-side condition, written from the claim's words: `SwitchSession` iff
the body has a negative code, or a code in the session-invalidating denylist,
or the HTTP layer reported a transport/HTTP error, or the body failed to
parse, or `data` is present but empty. -/
def specSwitchCond (resp : ApiResponse) : Bool :=
  (match codeOf resp with
   | some c => decide (c < 0)
   | none => false) ||
  (match codeOf resp with
   | some c => decide (c ∈ SESSION_ERROR_CODES)
   | none => false) ||
  (match resp with
   | .httpError => true
   | .otherError => true
   | _ => false) ||
  (match resp with
   | .jsonDecodeError => true
   | _ => false) ||
  (match resp with
   | .parsed r =>
     match r.data with
     | some l => l.isEmpty
     | none => false
   | _ => false)

/-- Spec-side condition, written from the claim's words: `Abort` iff a
non-negative, non-zero code outside the session-invalidating set is
returned. -/
def specAbortCond (resp : ApiResponse) : Bool :=
  match codeOf resp with
  | some c => decide (0 ≤ c) && decide (c ≠ 0) && !decide (c ∈ SESSION_ERROR_CODES)
  | none => false

/-- Amended switch condition: the last disjunct additionally covers a parsed
body whose `data` key is absent (not only present-but-empty), and is guarded
by "code absent or zero" so that it does not overlap the `Abort` case. -/
def specSwitchCondAmended (resp : ApiResponse) : Bool :=
  (match codeOf resp with
   | some c => decide (c < 0)
   | none => false) ||
  (match codeOf resp with
   | some c => decide (c ∈ SESSION_ERROR_CODES)
   | none => false) ||
  (match resp with
   | .httpError => true
   | .otherError => true
   | _ => false) ||
  (match resp with
   | .jsonDecodeError => true
   | _ => false) ||
  (match resp with
   | .parsed r =>
     (match r.code with
      | some c => decide (c = 0)
      | none => true) && !dataTruthy r
   | _ => false)


/-- The characters removed by the sanitizing regex `[<>:"/\\|?*]` — exactly the
filesystem-invalid characters named by the claim. -/
def INVALID_FILENAME_CHARS : List Char := ['<', '>', ':', '"', '/', '\\', '|', '?', '*']

def SPACE_CHAR : Char := (' ')

def DASH_CHAR : Char := ('-')

def DOT_CHAR : Char := ('.')

def UNDERSCORE_CHAR : Char := ('_')

/-- The characters stripped from both ends by `sanitized.strip('-.')`. -/
def STRIP_SET : List Char := ['-', '.']

/-- Python `name.replace(' ', '-')`. -/
def replaceSpaces (cs : List Char) : List Char :=
  cs.map fun c => if c = SPACE_CHAR then DASH_CHAR else c

/-- Python `re.sub(r'[<>:"/\\|?*]', '', s)`: drop the invalid characters. -/
def removeInvalid (cs : List Char) : List Char :=
  cs.filter fun c => !INVALID_FILENAME_CHARS.contains c

/-- Python `re.sub(r'-+', '-', s)`: collapse runs of dashes to a single dash. -/
def collapseDashes : List Char → List Char
  | [] => []
  | c :: rest =>
    match rest with
    | [] => [c]
    | c2 :: _ =>
      if c = DASH_CHAR ∧ c2 = DASH_CHAR then collapseDashes rest
      else c :: collapseDashes rest

/-- Python `s.strip('-.')`: remove leading and trailing dashes and dots. -/
def stripEnds (cs : List Char) : List Char :=
  ((cs.dropWhile (STRIP_SET.contains ·)).reverse.dropWhile (STRIP_SET.contains ·)).reverse

/-- ASCII uppercase/lowercase pairs, to model the Python builtin `str.lower`
(an external collaborator; the filename claims only involve ASCII). -/
def LOWER_MAP : List (Char × Char) :=
  [('A', 'a'), ('B', 'b'), ('C', 'c'), ('D', 'd'), ('E', 'e'), ('F', 'f'),
   ('G', 'g'), ('H', 'h'), ('I', 'i'), ('J', 'j'), ('K', 'k'), ('L', 'l'),
   ('M', 'm'), ('N', 'n'), ('O', 'o'), ('P', 'p'), ('Q', 'q'), ('R', 'r'),
   ('S', 's'), ('T', 't'), ('U', 'u'), ('V', 'v'), ('W', 'w'), ('X', 'x'),
   ('Y', 'y'), ('Z', 'z')]

/-- One character of Python `str.lower` (ASCII). -/
def lowerChar (c : Char) : Char :=
  match LOWER_MAP.lookup c with
  | some l => l
  | none => c

/-- `max_length` default of `sanitize_filename`. -/
def MAX_FILENAME_LEN : Nat := 80

/-- Fallback name for an empty sanitized string. -/
def UNNAMED : List Char := ("unnamed").toList

/-- `sanitize_filename` from the source, over the character sequence of the
name.  `md5hex` stands for the external `hashlib.md5(name.encode()).hexdigest()`;
the truncation branch appends an underscore and its first 8 characters. -/
def sanitize_filename (md5hex : String → String) (name : String) : List Char :=
  let s1 := replaceSpaces name.toList
  let s2 := removeInvalid s1
  let s3 := collapseDashes s2
  let s4 := stripEnds s3
  let s5 :=
    if MAX_FILENAME_LEN < s4.length then
      s4.take (MAX_FILENAME_LEN - 9) ++ UNDERSCORE_CHAR :: (md5hex name).toList.take 8
    else s4
  if s5.isEmpty then UNNAMED else s5.map lowerChar

/-- Does `pat` occur at the head of the list (Python `startswith` / matching
step of `split`)? -/
def startsWithPat : List Char → List Char → Bool
  | [], _ => true
  | _ :: _, [] => false
  | p :: ps, c :: cs => (p = c) && startsWithPat ps cs

/-- Left-to-right, non-overlapping split on a pattern, as Python `str.split`
with a non-empty separator.  `fuel` only pads structural recursion; callers
pass the input length, which each step consumes at least one unit of. -/
def splitOnPatAux (pat : List Char) : Nat → List Char → List Char → List (List Char)
  | _, [], acc => [acc.reverse]
  | 0, rest, acc => [acc.reverse ++ rest]
  | fuel + 1, c :: cs, acc =>
    if startsWithPat pat (c :: cs) then
      acc.reverse :: splitOnPatAux pat fuel ((c :: cs).drop pat.length) []
    else splitOnPatAux pat fuel cs (c :: acc)

/-- Python `s.split(pat)` for a non-empty pattern. -/
def splitOnPat (pat s : List Char) : List (List Char) :=
  splitOnPatAux pat s.length s []

/-- Python `pat in s` (substring containment). -/
def patFound (pat : List Char) : List Char → Bool
  | [] => pat.isEmpty
  | c :: cs => startsWithPat pat (c :: cs) || patFound pat cs

def FORMAT_KEY : List Char := ("format=").toList

def AMP_KEY : List Char := ("&").toList

def DOT_KEY : List Char := (".").toList

def JPEG_EXT : List Char := (".jpeg").toList

/-- The extension derivation of the success branch: default `.jpeg`,
overridden by the `format=` query hint of the URL
(`url.split('format=')[-1].split('&')[0]`), with a dot prepended when the
hint does not start with one. -/
def extFromUrl (url : List Char) : List Char :=
  if patFound FORMAT_KEY url then
    let ext := (splitOnPat AMP_KEY ((splitOnPat FORMAT_KEY url).getLastD [])).headD []
    if startsWithPat DOT_KEY ext then ext else DOT_CHAR :: ext
  else JPEG_EXT

/-- The saved filename `f"{base_filename}_{i+1}{ext}"` for the item at
0-based enumerate index `i` (the decimal rendering of `i+1` is
`Nat.toDigits 10`). -/
def itemFilename (base : List Char) (i : Nat) (url : List Char) : List Char :=
  base ++ UNDERSCORE_CHAR :: Nat.toDigits 10 (i + 1) ++ extFromUrl url

/-- The `data` array a success branch iterates over (`result['data']`). -/
def bodyData : Option ApiBody → List Item
  | some result => result.data.getD []
  | none => []

/-- The success test of `process_prompt`:
`result is not None and "data" in result and result["data"]`. -/
def isSuccessResult : Option ApiBody → Bool
  | some result => dataTruthy result
  | none => false

/-- Does the item pass the `if url:` guard of the download loop? -/
def urlTruthy (item : Item) : Bool :=
  match item.url with
  | some url => !(url == EMPTY_STR)
  | none => false

/-- The `(enumerate index, url)` pairs the download loop acts on: items of the
`data` array whose `url` is present and non-empty, with their 0-based
position. -/
def keptItems (i : Nat) : List Item → List (Nat × String)
  | [] => []
  | item :: rest =>
    match item.url with
    | some url =>
      if url = EMPTY_STR then keptItems (i + 1) rest
      else (i, url) :: keptItems (i + 1) rest
    | none => keptItems (i + 1) rest

namespace WorkerThread

/-- Observable outcome of one `process_prompt` call: the boolean the source
returns, the number of API calls made, the final `current_session_index`, the
filenames passed to `download_image` (in order), and the download results. -/
structure PromptResult where
  success : Bool
  attempts : Nat
  cursor : Nat
  saved : List (List Char)
  dlResults : List Bool
deriving DecidableEq

/-- The `while self.running and tried_sessions < len(self.sessions)` loop of
`process_prompt`, instrumented with the observables above.  `running t` is the
flag value at the t-th loop test, `api t` the response observed by the t-th
API call (every earlier iteration switched, so the iteration count equals
`tried_sessions`), `dl url` the external `download_image` result.  `fuel`
only pads structural recursion: each iteration increments `tried`, and the
guard needs `tried < sessions.length`, so `sessions.length + 1` units never
run out. -/
def ppLoop (sessions : List String) (running : Nat → Bool) (api : Nat → ApiResponse)
    (base : List Char) (dl : String → Bool) :
    Nat → Nat → Nat → PromptResult
  | 0, tried, cursor =>
    { success := false, attempts := tried, cursor := cursor, saved := [], dlResults := [] }
  | fuel + 1, tried, cursor =>
    if running tried = true ∧ tried < sessions.length then
      let res := call_api (api tried)
      if isSuccessResult res.1 then
        { success := true, attempts := tried + 1, cursor := cursor,
          saved := (keptItems 0 (bodyData res.1)).map (fun p => itemFilename base p.1 p.2.toList),
          dlResults := (keptItems 0 (bodyData res.1)).map (fun p => dl p.2) }
      else if res.2 then
        ppLoop sessions running api base dl fuel (tried + 1) ((cursor + 1) % sessions.length)
      else
        { success := false, attempts := tried + 1, cursor := cursor, saved := [], dlResults := [] }
    else
      { success := false, attempts := tried, cursor := cursor, saved := [], dlResults := [] }

/-- `WorkerThread.process_prompt` for one prompt, entered with
`current_session_index = cursor` and `tried_sessions = 0`. -/
def process_prompt (md5hex : String → String) (sessions : List String)
    (running : Nat → Bool) (api : Nat → ApiResponse) (dl : String → Bool)
    (prompt : String) (cursor : Nat) : PromptResult :=
  ppLoop sessions running api (sanitize_filename md5hex prompt) dl
    (sessions.length + 1) 0 cursor

/-- Observable outcome of one `run` call: the final status text and the number
of prompts handed to `process_prompt`, plus the final cursor. -/
structure RunResult where
  status : String
  processed : Nat
  cursor : Nat
deriving DecidableEq

/-- The `for i, prompt in enumerate(prompts)` loop of `run`: processes prompts
in order while the flag is observed true at the top of the loop
(`if not self.running: break`), threading `current_session_index`.
`runningTop i` is the flag at the check before prompt `i`; `runningIn i` and
`api i` are the per-prompt oracles fed to `process_prompt`. -/
def runLoop (md5hex : String → String) (sessions : List String)
    (runningTop : Nat → Bool) (runningIn : Nat → Nat → Bool)
    (api : Nat → Nat → ApiResponse) (dl : String → Bool) :
    List String → Nat → Nat → Nat × Nat
  | [], _, cursor => (0, cursor)
  | prompt :: rest, i, cursor =>
    if runningTop i = true then
      let pr := ppLoop sessions (runningIn i) (api i) (sanitize_filename md5hex prompt) dl
        (sessions.length + 1) 0 cursor
      let r := runLoop md5hex sessions runningTop runningIn api dl rest (i + 1) pr.cursor
      (r.1 + 1, r.2)
    else (0, cursor)

/-- `WorkerThread.run` after the two input files have been read into
`sessions` and `prompts`: the emptiness checks, the prompt loop, and the
final status update.  The source ends with `self.running = False` followed by
`self.update_status("Completed" if self.running else "Stopped")`, which the
last lines mirror verbatim. -/
def run (md5hex : String → String) (sessions prompts : List String)
    (runningTop : Nat → Bool) (runningIn : Nat → Nat → Bool)
    (api : Nat → Nat → ApiResponse) (dl : String → Bool) : RunResult :=
  if sessions.isEmpty then
    { status := "Error: No sessions", processed := 0, cursor := 0 }
  else if prompts.isEmpty then
    { status := "Error: No prompts", processed := 0, cursor := 0 }
  else
    let r := runLoop md5hex sessions runningTop runningIn api dl prompts 0 0
    let runningAfter := false
    { status := if runningAfter then "Completed" else "Stopped",
      processed := r.1, cursor := r.2 }

/-- The mutable per-worker fields the control methods touch. -/
structure WorkerState where
  running : Bool
  current_session_index : Nat
deriving DecidableEq

/-- `WorkerThread.start`: returns unchanged when already running
(`if self.running: return`); otherwise sets the flag and resets the cursor
to 0 before spawning the run thread (the thread itself is external). -/
def start (st : WorkerState) : WorkerState :=
  if st.running then st
  else { running := true, current_session_index := 0 }

/-- `WorkerThread.stop`: clears the flag. -/
def stop (st : WorkerState) : WorkerState :=
  { st with running := false }

end WorkerThread

/-- Concrete stand-in for the external md5 hex digest, used by witnesses. -/
def mdFix : String → String := fun _ => EMPTY_STR

/-- A flag that is observed true at every check. -/
def runTrue : Nat → Bool := fun _ => true

/-- A downloader that always succeeds. -/
def dlTrue : String → Bool := fun _ => true

/-- A downloader that always fails. -/
def dlFalse : String → Bool := fun _ => false

/-- A two-credential session pool. -/
def sessAB : List String := [("A"), ("B")]

/-- A one-credential session pool. -/
def sessA : List String := [("A")]

/-- A response carrying a session-invalidating error code. -/
def swResp : ApiResponse := .parsed { code := some (-2009), data := none }

/-- A response carrying a positive, non-session error code. -/
def abortResp : ApiResponse := .parsed { code := some 100, data := none }

/-- A successful response with two downloadable images. -/
def okResp2 : ApiResponse :=
  .parsed { code := none, data := some [{ url := some ("u1") }, { url := some ("u2") }] }

/-- A successful response whose `data` mixes one downloadable item with one
lacking a `url` and one with an empty `url`. -/
def mixedResp : ApiResponse :=
  .parsed { code := none,
            data := some [{ url := some ("u1") }, { url := none }, { url := some EMPTY_STR }] }

theorem sessionCodes_neg : ∀ c ∈ SESSION_ERROR_CODES, c < 0 := by decide

/-- C2 counterexample: a parsed body with neither a `code` nor a `data` key
(for example the JSON body `{}`) is classified `SwitchSession` by the code
(`call_api` falls through to `return None, True`), yet none of the claim's
five SwitchSession conditions holds — in particular `data` is absent, not
"present but empty". -/
theorem classify_spec_switch_counterexample :
    classify (.parsed { code := none, data := none }) = .SwitchSession ∧
    specSwitchCond (.parsed { code := none, data := none }) = false := by
  decide

/-- C2 (amended): `call_api` classifies an attempt as `Success` exactly when
the HTTP call succeeded, the body parses, the code is absent or zero, and a
non-empty `data` collection is present; as `SwitchSession` exactly when the
body carries a negative code, or a code in the session-invalidating denylist,
or the HTTP layer reported a transport/HTTP error, or the body failed to
parse, or the body parsed with code absent or zero but no non-empty `data`
collection present (absent or empty); and as `Abort` exactly when a
non-negative, non-zero code outside the session-invalidating set is
returned. -/
theorem classify_matches_spec_conditions (resp : ApiResponse) :
    (classify resp = .Success ↔ specSuccessCond resp = true) ∧
    (classify resp = .SwitchSession ↔ specSwitchCondAmended resp = true) ∧
    (classify resp = .Abort ↔ specAbortCond resp = true) := by
  rcases resp with ⟨code, data⟩ | _ | _ | _
  · have hdt : dataTruthy ⟨code, data⟩ = true ∨ dataTruthy ⟨code, data⟩ = false := by
      cases dataTruthy ⟨code, data⟩ <;> simp
    rcases code with _ | c
    · rcases hdt with h | h <;>
        simp [classify, WorkerThread.call_api, WorkerThread.callApiDataCheck, h,
          specSuccessCond, specSwitchCondAmended, specAbortCond, codeOf]
    · by_cases hc : c = 0
      · subst hc
        rcases hdt with h | h <;>
          · simp [classify, WorkerThread.call_api, WorkerThread.callApiDataCheck, h,
              specSuccessCond, specSwitchCondAmended, specAbortCond, codeOf]
            try decide
      · by_cases hm : c ∈ SESSION_ERROR_CODES
        · have hneg : c < 0 := sessionCodes_neg c hm
          simp [classify, WorkerThread.call_api, hc, hm, hneg,
            specSuccessCond, specSwitchCondAmended, specAbortCond, codeOf]
        · by_cases hneg : c < 0
          · simp [classify, WorkerThread.call_api, hc, hm, hneg,
              specSuccessCond, specSwitchCondAmended, specAbortCond, codeOf]
          · simp [classify, WorkerThread.call_api, hc, hm, hneg,
              specSuccessCond, specSwitchCondAmended, specAbortCond, codeOf]
            omega
  · decide
  · decide
  · decide

theorem call_api_fst_some (resp : ApiResponse) (b : ApiBody)
    (h : (WorkerThread.call_api resp).1 = some b) :
    dataTruthy b = true ∧ (WorkerThread.call_api resp).2 = false := by
  rcases resp with ⟨code, data⟩ | _ | _ | _
  · rcases code with _ | c
    · by_cases hd : dataTruthy ⟨none, data⟩ = true
      · simp_all [WorkerThread.call_api, WorkerThread.callApiDataCheck]
      · simp_all [WorkerThread.call_api, WorkerThread.callApiDataCheck]
    · by_cases hc : c = 0
      · subst hc
        by_cases hd : dataTruthy ⟨some 0, data⟩ = true <;>
          simp_all [WorkerThread.call_api, WorkerThread.callApiDataCheck]
      · simp_all [WorkerThread.call_api, WorkerThread.callApiDataCheck]
  · simp_all [WorkerThread.call_api]
  · simp_all [WorkerThread.call_api]
  · simp_all [WorkerThread.call_api]

theorem classify_switch_iff (resp : ApiResponse) :
    classify resp = .SwitchSession ↔ WorkerThread.call_api resp = (none, true) := by
  rcases h : WorkerThread.call_api resp with ⟨o, sw⟩
  cases o <;> cases sw <;> simp [classify, h]

theorem classify_abort_iff (resp : ApiResponse) :
    classify resp = .Abort ↔ WorkerThread.call_api resp = (none, false) := by
  rcases h : WorkerThread.call_api resp with ⟨o, sw⟩
  cases o <;> cases sw <;> simp [classify, h]

theorem classify_success_elim (resp : ApiResponse) (h : classify resp = .Success) :
    ∃ b, WorkerThread.call_api resp = (some b, false) ∧ dataTruthy b = true := by
  rcases hc : WorkerThread.call_api resp with ⟨o, sw⟩
  cases o with
  | none => cases sw <;> simp [classify, hc] at h
  | some b =>
    have h2 := call_api_fst_some resp b (by rw [hc])
    have hsw : sw = false := by
      have h3 := h2.2
      rw [hc] at h3
      exact h3
    subst hsw
    exact ⟨b, rfl, h2.1⟩

namespace WorkerThread

theorem ppLoop_exit (sessions : List String) (running : Nat → Bool)
    (api : Nat → ApiResponse) (base : List Char) (dl : String → Bool)
    (fuel tried cursor : Nat)
    (h : ¬ (running tried = true ∧ tried < sessions.length)) :
    ppLoop sessions running api base dl (fuel + 1) tried cursor
      = { success := false, attempts := tried, cursor := cursor,
          saved := [], dlResults := [] } := by
  simp only [ppLoop, if_neg h]

theorem ppLoop_switch_step (sessions : List String) (running : Nat → Bool)
    (api : Nat → ApiResponse) (base : List Char) (dl : String → Bool)
    (fuel tried cursor : Nat)
    (hr : running tried = true) (ht : tried < sessions.length)
    (hsw : call_api (api tried) = (none, true)) :
    ppLoop sessions running api base dl (fuel + 1) tried cursor
      = ppLoop sessions running api base dl fuel (tried + 1)
          ((cursor + 1) % sessions.length) := by
  simp only [ppLoop, if_pos (And.intro hr ht), hsw, isSuccessResult]
  simp

theorem ppLoop_success_step (sessions : List String) (running : Nat → Bool)
    (api : Nat → ApiResponse) (base : List Char) (dl : String → Bool)
    (fuel tried cursor : Nat)
    (hr : running tried = true) (ht : tried < sessions.length)
    (b : ApiBody) (hsucc : call_api (api tried) = (some b, false))
    (hb : dataTruthy b = true) :
    ppLoop sessions running api base dl (fuel + 1) tried cursor
      = { success := true, attempts := tried + 1, cursor := cursor,
          saved := (keptItems 0 (b.data.getD [])).map
            (fun p => itemFilename base p.1 p.2.toList),
          dlResults := (keptItems 0 (b.data.getD [])).map (fun p => dl p.2) } := by
  simp only [ppLoop, if_pos (And.intro hr ht), hsucc, isSuccessResult, hb, bodyData]
  simp

theorem ppLoop_abort_step (sessions : List String) (running : Nat → Bool)
    (api : Nat → ApiResponse) (base : List Char) (dl : String → Bool)
    (fuel tried cursor : Nat)
    (hr : running tried = true) (ht : tried < sessions.length)
    (hab : call_api (api tried) = (none, false)) :
    ppLoop sessions running api base dl (fuel + 1) tried cursor
      = { success := false, attempts := tried + 1, cursor := cursor,
          saved := [], dlResults := [] } := by
  simp only [ppLoop, if_pos (And.intro hr ht), hab, isSuccessResult]
  simp

end WorkerThread

namespace WorkerThread

theorem ppLoop_switch_steps (sessions : List String) (running : Nat → Bool)
    (api : Nat → ApiResponse) (base : List Char) (dl : String → Bool)
    (hrun : ∀ t, running t = true) :
    ∀ (k fuel tried cursor : Nat),
      (∀ j, j < k → call_api (api (tried + j)) = (none, true)) →
      tried + k ≤ sessions.length → cursor < sessions.length → k ≤ fuel →
      ppLoop sessions running api base dl fuel tried cursor
        = ppLoop sessions running api base dl (fuel - k) (tried + k)
            ((cursor + k) % sessions.length) := by
  intro k
  induction k with
  | zero =>
    intro fuel tried cursor _ _ hcur _
    simp [Nat.mod_eq_of_lt hcur]
  | succ k ih =>
    intro fuel tried cursor hsw hlen hcur hfuel
    obtain ⟨f, rfl⟩ : ∃ f, fuel = f + 1 := ⟨fuel - 1, by omega⟩
    rw [ppLoop_switch_step sessions running api base dl f tried cursor (hrun tried)
      (by omega) (by simpa using hsw 0 (by omega))]
    rw [ih f (tried + 1) ((cursor + 1) % sessions.length)
      (fun j hj => by
        have hj2 := hsw (j + 1) (by omega)
        rw [show tried + (j + 1) = tried + 1 + j from by omega] at hj2
        exact hj2)
      (by omega) (Nat.mod_lt _ (by omega)) (by omega)]
    have e1 : f + 1 - (k + 1) = f - k := by omega
    have e2 : tried + (k + 1) = tried + 1 + k := by omega
    have e3 : (cursor + (k + 1)) % sessions.length
        = ((cursor + 1) % sessions.length + k) % sessions.length := by
      rw [Nat.mod_add_mod]
      congr 1
      omega
    rw [e1, e2, e3]

theorem ppLoop_attempts_le (sessions : List String) (running : Nat → Bool)
    (api : Nat → ApiResponse) (base : List Char) (dl : String → Bool)
    (k : Nat) (hk : running k = false) :
    ∀ fuel tried cursor, tried ≤ k →
      (ppLoop sessions running api base dl fuel tried cursor).attempts ≤ k := by
  intro fuel
  induction fuel with
  | zero =>
    intro tried cursor h
    simpa [ppLoop] using h
  | succ fuel ih =>
    intro tried cursor h
    by_cases hc : running tried = true ∧ tried < sessions.length
    · have htk : tried < k := by
        rcases Nat.lt_or_ge tried k with h1 | h1
        · exact h1
        · exfalso
          have he : tried = k := by omega
          rw [he, hk] at hc
          simp at hc
      simp only [ppLoop, if_pos hc]
      by_cases hs : isSuccessResult (call_api (api tried)).1 = true
      · simp [hs]
        omega
      · by_cases hsw : (call_api (api tried)).2 = true
        · simp only [hs, hsw]
          simp only [Bool.false_eq_true, if_false, if_true]
          exact ih (tried + 1) _ (by omega)
        · simp [hs, hsw]
          omega
    · simp only [ppLoop, if_neg hc]
      exact h

theorem runLoop_processed_le (md5hex : String → String) (sessions : List String)
    (runningTop : Nat → Bool) (runningIn : Nat → Nat → Bool)
    (api : Nat → Nat → ApiResponse) (dl : String → Bool)
    (k : Nat) (hk : runningTop k = false) :
    ∀ prompts i cursor, i ≤ k →
      (runLoop md5hex sessions runningTop runningIn api dl prompts i cursor).1 ≤ k - i := by
  intro prompts
  induction prompts with
  | nil =>
    intro i cursor _
    simp [runLoop]
  | cons p rest ih =>
    intro i cursor h
    by_cases hi : runningTop i = true
    · have hik : i < k := by
        rcases Nat.lt_or_ge i k with h1 | h1
        · exact h1
        · exfalso
          have he : i = k := by omega
          rw [he, hk] at hi
          simp at hi
      simp only [runLoop, if_pos hi]
      have h2 := ih (i + 1)
        (ppLoop sessions (runningIn i) (api i) (sanitize_filename md5hex p) dl
          (sessions.length + 1) 0 cursor).cursor (by omega)
      omega
    · simp only [runLoop, if_neg hi]
      omega

end WorkerThread

theorem keptItems_length_eq_filter (data : List Item) :
    ∀ i, (keptItems i data).length = (data.filter urlTruthy).length := by
  induction data with
  | nil =>
    intro i
    simp [keptItems]
  | cons item rest ih =>
    intro i
    rcases hu : item.url with _ | url
    · simp only [keptItems, hu, List.filter_cons, urlTruthy]
      simpa using ih (i + 1)
    · by_cases he : url = EMPTY_STR
      · simp only [keptItems, hu, he, List.filter_cons, urlTruthy, if_pos]
        simpa [EMPTY_STR] using ih (i + 1)
      · simp only [keptItems, hu, List.filter_cons, urlTruthy, if_neg he]
        simpa [he] using ih (i + 1)

/-- C1: with a session pool of size N ≥ 1 (entry cursor in range), the running
flag observed true at every check, and every API attempt classified
`SwitchSession`, `process_prompt` makes exactly N API attempts for the prompt
and returns the sessions-exhausted failure result (`False`), without an
N+1-th attempt. -/
theorem process_prompt_all_switch_exhausts_pool (md5hex : String → String)
    (sessions : List String) (running : Nat → Bool) (api : Nat → ApiResponse)
    (dl : String → Bool) (prompt : String) (cursor : Nat)
    (hrun : ∀ t, running t = true)
    (hsw : ∀ t, classify (api t) = .SwitchSession)
    (hcur : cursor < sessions.length) :
    (WorkerThread.process_prompt md5hex sessions running api dl prompt cursor).attempts
        = sessions.length ∧
    (WorkerThread.process_prompt md5hex sessions running api dl prompt cursor).success
        = false := by
  unfold WorkerThread.process_prompt
  rw [WorkerThread.ppLoop_switch_steps sessions running api
      (sanitize_filename md5hex prompt) dl hrun sessions.length (sessions.length + 1) 0 cursor
      (fun j _ => (classify_switch_iff (api (0 + j))).1 (hsw (0 + j)))
      (by omega) hcur (by omega)]
  rw [show sessions.length + 1 - sessions.length = 0 + 1 from by omega]
  rw [WorkerThread.ppLoop_exit sessions running api (sanitize_filename md5hex prompt) dl 0
      (0 + sessions.length) ((cursor + sessions.length) % sessions.length)
      (by intro hcon; exact absurd hcon.2 (by omega))]
  simp

/-- C1 witness: pool of size 2, every attempt a session error. -/
theorem process_prompt_all_switch_exhausts_pool_witness :
    (WorkerThread.process_prompt mdFix sessAB runTrue (fun _ => swResp) dlTrue
      ("cat") 0).attempts = 2 ∧
    (WorkerThread.process_prompt mdFix sessAB runTrue (fun _ => swResp) dlTrue
      ("cat") 0).success = false := by
  have h := process_prompt_all_switch_exhausts_pool mdFix sessAB runTrue
    (fun _ => swResp) dlTrue ("cat") 0 (fun t => rfl)
    (fun t => (by decide : classify swResp = Classification.SwitchSession)) (by decide)
  simpa [sessAB] using h

/-- C3 counterexample: pool of size 2, cursor at its pre-run position 0, every
attempt a session switch: after the prompt exhausts both sessions the cursor
is back at 0 — the two mid-run `(index + 1) % 2` advances returned it to its
pre-prompt (and pre-run) position automatically, with no `reset` involved. -/
theorem cursor_auto_return_counterexample :
    (WorkerThread.process_prompt mdFix sessAB runTrue (fun _ => swResp) dlTrue
      ("cat") 0).attempts = 2 ∧
    (WorkerThread.process_prompt mdFix sessAB runTrue (fun _ => swResp) dlTrue
      ("cat") 0).cursor = 0 := by
  decide

/-- C3 (amended): exhausting all N sessions for one prompt advances the cursor
exactly N single steps modulo N, which puts it back at its position before
that prompt; `start()` additionally resets it to 0 explicitly. -/
theorem process_prompt_exhaustion_returns_cursor (md5hex : String → String)
    (sessions : List String) (running : Nat → Bool) (api : Nat → ApiResponse)
    (dl : String → Bool) (prompt : String) (cursor : Nat)
    (hrun : ∀ t, running t = true)
    (hsw : ∀ t, classify (api t) = .SwitchSession)
    (hcur : cursor < sessions.length) :
    (WorkerThread.process_prompt md5hex sessions running api dl prompt cursor).cursor
        = cursor ∧
    (WorkerThread.start { running := false, current_session_index := cursor }).current_session_index
        = 0 := by
  constructor
  · unfold WorkerThread.process_prompt
    rw [WorkerThread.ppLoop_switch_steps sessions running api
        (sanitize_filename md5hex prompt) dl hrun sessions.length (sessions.length + 1) 0 cursor
        (fun j _ => (classify_switch_iff (api (0 + j))).1 (hsw (0 + j)))
        (by omega) hcur (by omega)]
    rw [show sessions.length + 1 - sessions.length = 0 + 1 from by omega]
    rw [WorkerThread.ppLoop_exit sessions running api (sanitize_filename md5hex prompt) dl 0
        (0 + sessions.length) ((cursor + sessions.length) % sessions.length)
        (by intro hcon; exact absurd hcon.2 (by omega))]
    show (cursor + sessions.length) % sessions.length = cursor
    rw [Nat.add_mod_right]
    exact Nat.mod_eq_of_lt hcur
  · simp [WorkerThread.start]

/-- C3 witness: pool of size 2, entry cursor 1. -/
theorem process_prompt_exhaustion_returns_cursor_witness :
    (WorkerThread.process_prompt mdFix sessAB runTrue (fun _ => swResp) dlTrue
      ("cat") 1).cursor = 1 ∧
    (WorkerThread.start { running := false, current_session_index := 1 }).current_session_index
        = 0 :=
  process_prompt_exhaustion_returns_cursor mdFix sessAB runTrue (fun _ => swResp) dlTrue
    ("cat") 1 (fun t => rfl)
    (fun t => (by decide : classify swResp = Classification.SwitchSession)) (by decide)

/-- C6 counterexample: a response whose single `data` entry has no `url` key is
classified `Success` and `process_prompt` returns the completed result, but it
schedules 0 saves for the 1 entry of the data collection — the `if url:` guard
skips entries without a (non-empty) url. -/
theorem success_saves_counterexample :
    classify (.parsed { code := none, data := some [{ url := none }] }) = .Success ∧
    (WorkerThread.process_prompt mdFix sessA runTrue
      (fun _ => .parsed { code := none, data := some [{ url := none }] }) dlTrue
      ("cat") 0).success = true ∧
    (WorkerThread.process_prompt mdFix sessA runTrue
      (fun _ => .parsed { code := none, data := some [{ url := none }] }) dlTrue
      ("cat") 0).saved.length = 0 ∧
    (bodyData (WorkerThread.call_api
      (.parsed { code := none, data := some [{ url := none }] })).1).length = 1 := by
  decide

/-- C6 (amended): when the attempt at position k is classified `Success` (after
k switch-classified attempts), `process_prompt` advances the cursor no further
— the final cursor is the one the successful attempt used — and schedules
exactly one image save per `data` entry whose `url` is present and non-empty,
then returns the completed result. -/
theorem process_prompt_success_schedules_url_saves (md5hex : String → String)
    (sessions : List String) (running : Nat → Bool) (api : Nat → ApiResponse)
    (dl : String → Bool) (prompt : String) (cursor k : Nat)
    (hrun : ∀ t, running t = true)
    (hprev : ∀ j, j < k → classify (api j) = .SwitchSession)
    (hsucc : classify (api k) = .Success)
    (hk : k < sessions.length) (hcur : cursor < sessions.length) :
    (WorkerThread.process_prompt md5hex sessions running api dl prompt cursor).success
        = true ∧
    (WorkerThread.process_prompt md5hex sessions running api dl prompt cursor).attempts
        = k + 1 ∧
    (WorkerThread.process_prompt md5hex sessions running api dl prompt cursor).cursor
        = (cursor + k) % sessions.length ∧
    (WorkerThread.process_prompt md5hex sessions running api dl prompt cursor).saved.length
        = ((bodyData (WorkerThread.call_api (api k)).1).filter urlTruthy).length := by
  obtain ⟨b, hc, hd⟩ := classify_success_elim _ hsucc
  unfold WorkerThread.process_prompt
  rw [WorkerThread.ppLoop_switch_steps sessions running api
      (sanitize_filename md5hex prompt) dl hrun k (sessions.length + 1) 0 cursor
      (fun j hj => by simpa using (classify_switch_iff (api j)).1 (hprev j hj))
      (by omega) hcur (by omega)]
  rw [show sessions.length + 1 - k = (sessions.length - k) + 1 from by omega]
  rw [WorkerThread.ppLoop_success_step sessions running api
      (sanitize_filename md5hex prompt) dl (sessions.length - k) (0 + k)
      ((cursor + k) % sessions.length) (hrun (0 + k)) (by omega) b
      (by simpa using hc) hd]
  rw [hc]
  simp [bodyData, keptItems_length_eq_filter]

/-- C6 witness: one-credential pool, success on the first attempt with one
usable url among three data entries. -/
theorem process_prompt_success_schedules_url_saves_witness :
    (WorkerThread.process_prompt mdFix sessA runTrue (fun _ => mixedResp) dlTrue
      ("cat") 0).success = true ∧
    (WorkerThread.process_prompt mdFix sessA runTrue (fun _ => mixedResp) dlTrue
      ("cat") 0).attempts = 1 ∧
    (WorkerThread.process_prompt mdFix sessA runTrue (fun _ => mixedResp) dlTrue
      ("cat") 0).cursor = 0 ∧
    (WorkerThread.process_prompt mdFix sessA runTrue (fun _ => mixedResp) dlTrue
      ("cat") 0).saved.length = 1 := by
  have h := process_prompt_success_schedules_url_saves mdFix sessA runTrue
    (fun _ => mixedResp) dlTrue ("cat") 0 0 (fun t => rfl)
    (fun j hj => absurd hj (by omega))
    ((by decide : classify mixedResp = Classification.Success)) (by decide) (by decide)
  refine ⟨h.1, by simpa using h.2.1, by simpa using h.2.2.1, ?_⟩
  rw [h.2.2.2]
  decide

/-- C7: the first attempt classified `Abort` (every earlier attempt having
switched) ends the prompt at once: `process_prompt` returns the failure result
after exactly that attempt, with no further API call, no extra cursor
rotation, and nothing scheduled for saving — however many untried credentials
remain. -/
theorem process_prompt_abort_stops_immediately (md5hex : String → String)
    (sessions : List String) (running : Nat → Bool) (api : Nat → ApiResponse)
    (dl : String → Bool) (prompt : String) (cursor k : Nat)
    (hrun : ∀ t, running t = true)
    (hprev : ∀ j, j < k → classify (api j) = .SwitchSession)
    (hab : classify (api k) = .Abort)
    (hk : k < sessions.length) (hcur : cursor < sessions.length) :
    (WorkerThread.process_prompt md5hex sessions running api dl prompt cursor).success
        = false ∧
    (WorkerThread.process_prompt md5hex sessions running api dl prompt cursor).attempts
        = k + 1 ∧
    (WorkerThread.process_prompt md5hex sessions running api dl prompt cursor).cursor
        = (cursor + k) % sessions.length ∧
    (WorkerThread.process_prompt md5hex sessions running api dl prompt cursor).saved
        = [] := by
  unfold WorkerThread.process_prompt
  rw [WorkerThread.ppLoop_switch_steps sessions running api
      (sanitize_filename md5hex prompt) dl hrun k (sessions.length + 1) 0 cursor
      (fun j hj => by simpa using (classify_switch_iff (api j)).1 (hprev j hj))
      (by omega) hcur (by omega)]
  rw [show sessions.length + 1 - k = (sessions.length - k) + 1 from by omega]
  rw [WorkerThread.ppLoop_abort_step sessions running api
      (sanitize_filename md5hex prompt) dl (sessions.length - k) (0 + k)
      ((cursor + k) % sessions.length) (hrun (0 + k)) (by omega)
      (by simpa using (classify_abort_iff (api k)).1 hab)]
  simp

/-- C7 witness: one-credential pool, abort on the first attempt. -/
theorem process_prompt_abort_stops_immediately_witness :
    (WorkerThread.process_prompt mdFix sessA runTrue (fun _ => abortResp) dlTrue
      ("cat") 0).success = false ∧
    (WorkerThread.process_prompt mdFix sessA runTrue (fun _ => abortResp) dlTrue
      ("cat") 0).attempts = 1 ∧
    (WorkerThread.process_prompt mdFix sessA runTrue (fun _ => abortResp) dlTrue
      ("cat") 0).cursor = 0 ∧
    (WorkerThread.process_prompt mdFix sessA runTrue (fun _ => abortResp) dlTrue
      ("cat") 0).saved = [] := by
  have h := process_prompt_abort_stops_immediately mdFix sessA runTrue
    (fun _ => abortResp) dlTrue ("cat") 0 0 (fun t => rfl)
    (fun j hj => absurd hj (by omega))
    ((by decide : classify abortResp = Classification.Abort)) (by decide) (by decide)
  exact ⟨h.1, by simpa using h.2.1, by simpa using h.2.2.1, h.2.2.2⟩

/-- C10: a failed image download neither aborts the prompt nor triggers a
session retry: when the first attempt is a `Success` response and the
downloader fails for one of its images, `process_prompt` still attempts the
download of every entry with a usable url (the failing one included), makes
no further API attempt, leaves the cursor where it is, and returns the
completed result. -/
theorem download_failure_does_not_abort_prompt (md5hex : String → String)
    (sessions : List String) (running : Nat → Bool) (api : Nat → ApiResponse)
    (dl : String → Bool) (prompt : String) (cursor : Nat)
    (hrun0 : running 0 = true) (h0 : 0 < sessions.length)
    (hsucc : classify (api 0) = .Success)
    (_hfail : ∃ p ∈ keptItems 0 (bodyData (WorkerThread.call_api (api 0)).1),
      dl p.2 = false) :
    (WorkerThread.process_prompt md5hex sessions running api dl prompt cursor).success
        = true ∧
    (WorkerThread.process_prompt md5hex sessions running api dl prompt cursor).attempts
        = 1 ∧
    (WorkerThread.process_prompt md5hex sessions running api dl prompt cursor).cursor
        = cursor ∧
    (WorkerThread.process_prompt md5hex sessions running api dl prompt cursor).dlResults
        = (keptItems 0 (bodyData (WorkerThread.call_api (api 0)).1)).map (fun p => dl p.2) ∧
    (WorkerThread.process_prompt md5hex sessions running api dl prompt cursor).saved.length
        = (keptItems 0 (bodyData (WorkerThread.call_api (api 0)).1)).length := by
  obtain ⟨b, hc, hd⟩ := classify_success_elim _ hsucc
  unfold WorkerThread.process_prompt
  rw [WorkerThread.ppLoop_success_step sessions running api
      (sanitize_filename md5hex prompt) dl sessions.length 0 cursor hrun0 h0 b hc hd]
  rw [hc]
  simp [bodyData]

/-- C10 witness: success with two urls, downloader failing on both. -/
theorem download_failure_does_not_abort_prompt_witness :
    (WorkerThread.process_prompt mdFix sessA runTrue (fun _ => okResp2) dlFalse
      ("cat") 0).success = true ∧
    (WorkerThread.process_prompt mdFix sessA runTrue (fun _ => okResp2) dlFalse
      ("cat") 0).attempts = 1 ∧
    (WorkerThread.process_prompt mdFix sessA runTrue (fun _ => okResp2) dlFalse
      ("cat") 0).cursor = 0 ∧
    (WorkerThread.process_prompt mdFix sessA runTrue (fun _ => okResp2) dlFalse
      ("cat") 0).dlResults
        = (keptItems 0 (bodyData (WorkerThread.call_api okResp2).1)).map
            (fun p => dlFalse p.2) ∧
    (WorkerThread.process_prompt mdFix sessA runTrue (fun _ => okResp2) dlFalse
      ("cat") 0).saved.length
        = (keptItems 0 (bodyData (WorkerThread.call_api okResp2).1)).length := by
  have h := download_failure_does_not_abort_prompt mdFix sessA runTrue
    (fun _ => okResp2) dlFalse ("cat") 0 rfl (by decide)
    ((by decide : classify okResp2 = Classification.Success))
    ⟨(0, ("u1")), by decide, by decide⟩
  exact h

/-- C8: if the running flag is observed false at the k-th check of the
per-prompt retry loop, at most k API calls were issued (the k+1-th call never
starts), and if it is observed false at the k-th top-of-loop check of the
per-worker prompt loop, at most k prompts were handed to `process_prompt`. -/
theorem running_false_stops_loops (md5hex : String → String)
    (sessions : List String) (running : Nat → Bool) (api : Nat → ApiResponse)
    (dl : String → Bool) (prompt : String) (cursor k : Nat)
    (hk : running k = false)
    (md5hex2 : String → String) (sessions2 prompts : List String)
    (runningTop : Nat → Bool) (runningIn : Nat → Nat → Bool)
    (api2 : Nat → Nat → ApiResponse) (dl2 : String → Bool) (k2 : Nat)
    (hk2 : runningTop k2 = false) :
    (WorkerThread.process_prompt md5hex sessions running api dl prompt cursor).attempts
        ≤ k ∧
    (WorkerThread.run md5hex2 sessions2 prompts runningTop runningIn api2 dl2).processed
        ≤ k2 := by
  constructor
  · exact WorkerThread.ppLoop_attempts_le sessions running api
      (sanitize_filename md5hex prompt) dl k hk (sessions.length + 1) 0 cursor
      (Nat.zero_le k)
  · unfold WorkerThread.run
    by_cases h1 : sessions2.isEmpty
    · simp [h1]
    · by_cases h2 : prompts.isEmpty
      · simp [h1, h2]
      · simp only [h1, h2, Bool.false_eq_true, if_false]
        have h3 := WorkerThread.runLoop_processed_le md5hex2 sessions2 runningTop
          runningIn api2 dl2 k2 hk2 prompts 0 0 (Nat.zero_le k2)
        simpa using h3

/-- C8 witness: the flag is false at check 0 in both loops, so no API call and
no prompt processing happens at all. -/
theorem running_false_stops_loops_witness :
    (WorkerThread.process_prompt mdFix sessAB (fun _ => false) (fun _ => swResp) dlTrue
      ("cat") 0).attempts ≤ 0 ∧
    (WorkerThread.run mdFix sessAB [("cat")] (fun _ => false) (fun _ _ => true)
      (fun _ _ => swResp) dlTrue).processed ≤ 0 :=
  running_false_stops_loops mdFix sessAB (fun _ => false) (fun _ => swResp) dlTrue
    ("cat") 0 0 rfl mdFix sessAB [("cat")] (fun _ => false) (fun _ _ => true)
    (fun _ _ => swResp) dlTrue 0 rfl

/-- C9: `start()` on an already-running worker changes nothing; otherwise it
sets the running flag and resets the session cursor to 0, so the run begins at
the first credential of the pool. -/
theorem start_noop_or_reset (st : WorkerThread.WorkerState) :
    (st.running = true → WorkerThread.start st = st) ∧
    (st.running = false →
      WorkerThread.start st = { running := true, current_session_index := 0 }) := by
  constructor <;> intro h <;> simp [WorkerThread.start, h]

/-- C9 witness: one already-running worker, one idle worker with a stale
cursor. -/
theorem start_noop_or_reset_witness :
    WorkerThread.start { running := true, current_session_index := 7 }
        = { running := true, current_session_index := 7 } ∧
    WorkerThread.start { running := false, current_session_index := 5 }
        = { running := true, current_session_index := 0 } :=
  ⟨(start_noop_or_reset { running := true, current_session_index := 7 }).1 rfl,
   (start_noop_or_reset { running := false, current_session_index := 5 }).2 rfl⟩

/-- C4 (code bug): a run that finishes its whole prompt batch naturally — the
flag observed true at every check and the single prompt succeeding — still
ends with status "Stopped", because the source assigns `self.running = False`
immediately before evaluating `"Completed" if self.running else "Stopped"`;
the "Completed" branch of that conditional is unreachable. -/
theorem run_final_status_always_stopped :
    (WorkerThread.run mdFix sessA [("cat")] (fun _ => true) (fun _ _ => true)
      (fun _ _ => okResp2) dlTrue).status = "Stopped" ∧
    (WorkerThread.run mdFix sessA [("cat")] (fun _ => true) (fun _ _ => true)
      (fun _ _ => okResp2) dlTrue).processed = 1 := by
  decide

theorem removeInvalid_not_invalid {c : Char} {l : List Char}
    (h : c ∈ removeInvalid l) : c ∉ INVALID_FILENAME_CHARS := by
  unfold removeInvalid at h
  have h2 := (List.mem_filter.1 h).2
  simpa using h2

theorem mem_collapseDashes {c : Char} : ∀ {l : List Char}, c ∈ collapseDashes l → c ∈ l := by
  intro l
  induction l with
  | nil => simp [collapseDashes]
  | cons a rest ih =>
    cases rest with
    | nil => simp [collapseDashes]
    | cons b rest2 =>
      intro h
      simp only [collapseDashes] at h
      by_cases hd : a = DASH_CHAR ∧ b = DASH_CHAR
      · rw [if_pos hd] at h
        exact List.mem_cons_of_mem _ (ih h)
      · rw [if_neg hd] at h
        rcases List.mem_cons.1 h with h1 | h1
        · exact h1 ▸ List.mem_cons_self _ _
        · exact List.mem_cons_of_mem _ (ih h1)

theorem mem_stripEnds {c : Char} {l : List Char} (h : c ∈ stripEnds l) : c ∈ l := by
  unfold stripEnds at h
  rw [List.mem_reverse] at h
  have h2 := (List.dropWhile_sublist _).subset h
  rw [List.mem_reverse] at h2
  exact (List.dropWhile_sublist _).subset h2

theorem lookup_mem_map_snd {m : List (Char × Char)} {a b : Char}
    (h : m.lookup a = some b) : b ∈ m.map Prod.snd := by
  induction m with
  | nil => simp [List.lookup] at h
  | cons p rest ih =>
    obtain ⟨k, v⟩ := p
    simp only [List.lookup] at h
    by_cases hk : (a == k) = true
    · simp only [hk, Option.some.injEq] at h
      subst h
      simp
    · simp only [Bool.not_eq_true] at hk
      rw [hk] at h
      simp only [List.map_cons]
      exact List.mem_cons_of_mem _ (ih h)

theorem lowerChar_not_invalid {c : Char} (h : c ∉ INVALID_FILENAME_CHARS) :
    lowerChar c ∉ INVALID_FILENAME_CHARS := by
  unfold lowerChar
  cases hl : LOWER_MAP.lookup c with
  | none => exact h
  | some l =>
    have hm := lookup_mem_map_snd hl
    have hall : ∀ x ∈ LOWER_MAP.map Prod.snd, x ∉ INVALID_FILENAME_CHARS := by decide
    exact hall l hm

theorem digitChar_not_invalid : ∀ m, m < 10 → Nat.digitChar m ∉ INVALID_FILENAME_CHARS := by
  decide

theorem toDigitsCore_not_invalid :
    ∀ (fuel n : Nat) (ds : List Char), (∀ c ∈ ds, c ∉ INVALID_FILENAME_CHARS) →
      ∀ c ∈ Nat.toDigitsCore 10 fuel n ds, c ∉ INVALID_FILENAME_CHARS := by
  intro fuel
  induction fuel with
  | zero =>
    intro n ds hds c hc
    exact hds c (by simpa [Nat.toDigitsCore] using hc)
  | succ fuel ih =>
    intro n ds hds c hc
    simp only [Nat.toDigitsCore] at hc
    have hd : Nat.digitChar (n % 10) ∉ INVALID_FILENAME_CHARS :=
      digitChar_not_invalid _ (Nat.mod_lt _ (by omega))
    have hds2 : ∀ x ∈ Nat.digitChar (n % 10) :: ds, x ∉ INVALID_FILENAME_CHARS := by
      intro x hx
      rcases List.mem_cons.1 hx with h1 | h1
      · exact h1 ▸ hd
      · exact hds x h1
    by_cases hz : n / 10 = 0
    · rw [if_pos hz] at hc
      exact hds2 c hc
    · rw [if_neg hz] at hc
      exact ih _ _ hds2 c hc

theorem toDigits_not_invalid (n : Nat) :
    ∀ c ∈ Nat.toDigits 10 n, c ∉ INVALID_FILENAME_CHARS := by
  intro c hc
  rw [Nat.toDigits] at hc
  exact toDigitsCore_not_invalid _ _ _ (by simp) c hc

theorem sanitize_filename_not_invalid (md5hex : String → String)
    (hmd5 : ∀ s, ∀ c ∈ (md5hex s).toList, c ∉ INVALID_FILENAME_CHARS)
    (name : String) :
    ∀ c ∈ sanitize_filename md5hex name, c ∉ INVALID_FILENAME_CHARS := by
  intro c hc
  have h4 : ∀ a ∈ stripEnds (collapseDashes (removeInvalid (replaceSpaces name.toList))),
      a ∉ INVALID_FILENAME_CHARS :=
    fun a ha => removeInvalid_not_invalid (mem_collapseDashes (mem_stripEnds ha))
  simp only [sanitize_filename] at hc
  set s4 := stripEnds (collapseDashes (removeInvalid (replaceSpaces name.toList)))
    with hs4def
  set s5 := if MAX_FILENAME_LEN < s4.length then
      s4.take (MAX_FILENAME_LEN - 9) ++ UNDERSCORE_CHAR :: (md5hex name).toList.take 8
    else s4 with hs5def
  have h5 : ∀ a ∈ s5, a ∉ INVALID_FILENAME_CHARS := by
    intro a ha
    rw [hs5def] at ha
    by_cases hlen : MAX_FILENAME_LEN < s4.length
    · rw [if_pos hlen] at ha
      rcases List.mem_append.1 ha with h1 | h1
      · exact h4 a (List.take_subset _ _ h1)
      · rcases List.mem_cons.1 h1 with h2 | h2
        · rw [h2]
          decide
        · exact hmd5 name a (List.take_subset _ _ h2)
    · rw [if_neg hlen] at ha
      exact h4 a ha
  by_cases hemp : s5.isEmpty = true
  · rw [if_pos hemp] at hc
    revert hc
    revert c
    decide
  · rw [if_neg hemp] at hc
    rcases List.mem_map.1 hc with ⟨a, ha, hac⟩
    exact hac ▸ lowerChar_not_invalid (h5 a ha)

theorem itemFilename_not_invalid (base : List Char) (i : Nat) (url : List Char)
    (hbase : ∀ c ∈ base, c ∉ INVALID_FILENAME_CHARS)
    (hext : ∀ c ∈ extFromUrl url, c ∉ INVALID_FILENAME_CHARS) :
    ∀ c ∈ itemFilename base i url, c ∉ INVALID_FILENAME_CHARS := by
  intro c hc
  unfold itemFilename at hc
  rcases List.mem_append.1 hc with h1 | h1
  · rcases List.mem_append.1 h1 with h2 | h2
    · exact hbase c h2
    · rcases List.mem_cons.1 h2 with h3 | h3
      · rw [h3]
        decide
      · exact toDigits_not_invalid _ c h3
  · exact hext c h1

/-- C5 counterexample: with identical prompt text, image index, and prompt
source file name, the saved filename still differs between two runs whose
successful responses carry URLs with different `format=` hints — so the name
is not a function of the claimed three inputs — and a URL whose hint contains
a slash puts a filesystem-invalid character straight into the filename. -/
theorem filename_pure_function_counterexample :
    itemFilename (sanitize_filename mdFix ("a b")) 0 (("u?format=png").toList)
      ≠ itemFilename (sanitize_filename mdFix ("a b")) 0 (("u").toList) ∧
    ('/') ∈ itemFilename (sanitize_filename mdFix ("a b")) 0
      (("u?format=p/ng").toList) := by
  decide

/-- C5 (amended): the saved image filename is a pure function of the prompt
text, the 1-based image index, and the image URL (the prompt source file name
only selects the output directory); the sanitized prompt part and the decimal
index contain none of the characters `< > : " / \ | ? *`, and the whole
filename contains none of them whenever the extension taken from the URL's
`format=` hint (default `.jpeg`) contains none. -/
theorem filename_sanitized_chars (md5hex : String → String)
    (hmd5 : ∀ s, ∀ c ∈ (md5hex s).toList, c ∉ INVALID_FILENAME_CHARS)
    (prompt : String) (i : Nat) (url : List Char) :
    (∀ c ∈ sanitize_filename md5hex prompt, c ∉ INVALID_FILENAME_CHARS) ∧
    (∀ c ∈ Nat.toDigits 10 (i + 1), c ∉ INVALID_FILENAME_CHARS) ∧
    ((∀ c ∈ extFromUrl url, c ∉ INVALID_FILENAME_CHARS) →
      ∀ c ∈ itemFilename (sanitize_filename md5hex prompt) i url,
        c ∉ INVALID_FILENAME_CHARS) := by
  refine ⟨sanitize_filename_not_invalid md5hex hmd5 prompt, toDigits_not_invalid _, ?_⟩
  intro hext
  exact itemFilename_not_invalid _ i url (sanitize_filename_not_invalid md5hex hmd5 prompt) hext

/-- C5 witness: a lowercase-hex digest stand-in, a spaced prompt, index 1, a
png-hinted URL. -/
theorem filename_sanitized_chars_witness :
    (∀ c ∈ sanitize_filename (fun _ => ("abc123")) ("a man is drinking beer"),
        c ∉ INVALID_FILENAME_CHARS) ∧
    (∀ c ∈ Nat.toDigits 10 (0 + 1), c ∉ INVALID_FILENAME_CHARS) ∧
    ((∀ c ∈ extFromUrl (("u?format=png").toList), c ∉ INVALID_FILENAME_CHARS) →
      ∀ c ∈ itemFilename (sanitize_filename (fun _ => ("abc123"))
          ("a man is drinking beer")) 0 (("u?format=png").toList),
        c ∉ INVALID_FILENAME_CHARS) :=
  filename_sanitized_chars (fun _ => ("abc123"))
    (fun s => (by decide : ∀ c ∈ ("abc123").toList, c ∉ INVALID_FILENAME_CHARS))
    ("a man is drinking beer") 0 (("u?format=png").toList)
